import Mathlib

/-!
# sqlite3pp: resource lifecycle, iteration and error translation

A shallow embedding of `src/sqlite3pp.h` and `src/sqlite3pp.cpp`.

The wrapper is a thin layer over the SQLite C interface, which is an external
library.  The native engine is therefore a parameter of every definition: a
record `Native` of functions that answer each native call from the history of
state-changing native calls issued so far.  That makes the engine an arbitrary
deterministic collaborator.  Every wrapper function takes the history, appends
the native calls it issues (oldest first) and returns the new history together
with the object it was called on and either its result or the error it threw.
-/

namespace sqlite3pp

/-! ## The native boundary -/

/-- Native pointers (`sqlite3*`, `sqlite3_stmt*`) are opaque addresses. -/
abbrev Ptr := Nat

/-- The null pointer. -/
def nullptr : Ptr := 0

/-- Result code `SQLITE_OK` of `sqlite3.h`. -/
def SQLITE_OK : Int := 0

/-- Result code `SQLITE_ROW` of `sqlite3.h`: `sqlite3_step` has a row ready. -/
def SQLITE_ROW : Int := 100

/-- Result code `SQLITE_DONE` of `sqlite3.h`: `sqlite3_step` has finished. -/
def SQLITE_DONE : Int := 101

/-- Conversion of an integer to the 32 bit `int` (two's complement). -/
def toInt32 (x : Int) : Int := (x + 2 ^ 31) % 2 ^ 32 - 2 ^ 31

/-- The values accepted by the five overloads of `statement::bind(int pos, _)`.
A `double` is carried as its bit pattern; texts are lists of characters. -/
inductive Value where
  | int (v : Int)
  | int64 (v : Int)
  | double (bits : Nat)
  | cstr (s : List Char)
  | string (s : List Char)
  deriving DecidableEq, Repr

/-- The state-changing native calls the wrapper issues, with their arguments
(out-parameters are left out: what they receive is the engine's answer). -/
inductive Call where
  | sqlite3_open (path : String)
  | sqlite3_close (db : Ptr)
  | sqlite3_prepare_v2 (db : Ptr) (sql : String)
  | sqlite3_finalize (stmt : Ptr)
  | sqlite3_reset (stmt : Ptr)
  | sqlite3_step (stmt : Ptr)
  | sqlite3_bind_int (stmt : Ptr) (pos : Int) (value : Int)
  | sqlite3_bind_int64 (stmt : Ptr) (pos : Int) (value : Int)
  | sqlite3_bind_double (stmt : Ptr) (pos : Int) (bits : Nat)
  | sqlite3_bind_text (stmt : Ptr) (pos : Int) (value : List Char) (n : Int)
  deriving DecidableEq, Repr

/-- The native engine.  Each field answers one native function; the first
argument of the history-dependent ones is the list of native calls issued
before this one, oldest first. -/
structure Native where
  /-- Answer of `sqlite3_open`: the result code and the handle stored through the out-parameter. -/
  sqlite3_open : List Call → String → Int × Ptr
  /-- Answer of `sqlite3_prepare_v2`: the statement stored through the out-parameter. -/
  sqlite3_prepare_v2 : List Call → Ptr → String → Ptr
  /-- Answer of `sqlite3_step`: the result code. -/
  sqlite3_step : List Call → Ptr → Int
  /-- Answer of the `sqlite3_bind_*` family: the result code. -/
  sqlite3_bind : List Call → Ptr → Int → Value → Int
  /-- Answer of `sqlite3_db_handle`. -/
  sqlite3_db_handle : Ptr → Ptr
  /-- Answer of `sqlite3_errcode`. -/
  sqlite3_errcode : List Call → Ptr → Int
  /-- Answer of `sqlite3_errmsg`. -/
  sqlite3_errmsg : List Call → Ptr → List Char
  /-- Answer of `sqlite3_errstr`. -/
  sqlite3_errstr : Int → List Char
  /-- Answer of `sqlite3_last_insert_rowid`, a signed 64 bit integer. -/
  sqlite3_last_insert_rowid : List Call → Ptr → Int
  /-- Answer of `sqlite3_column_text`. -/
  sqlite3_column_text : List Call → Ptr → Int → List Char

/-! ## class error -/

/-- An argument of a `printf` style call. -/
inductive FmtArg where
  | s (text : List Char)
  | d (n : Int)

/-- Decimal rendering of an `int`, as `%d` prints it. -/
def decimal (n : Int) : List Char := (toString n).toList

/-- Expansion of a format string that uses the directives `%s` and `%d`. -/
def expandFormat : List Char → List FmtArg → List Char
  | '%' :: 's' :: rest, FmtArg.s text :: args => text ++ expandFormat rest args
  | '%' :: 'd' :: rest, FmtArg.d n :: args => decimal n ++ expandFormat rest args
  | c :: rest, args => c :: expandFormat rest args
  | [], _ => []

/-- C `snprintf(buf, n, fmt, ...)`.  The return value is the length of the
complete expansion.  When `n` is positive the buffer receives the first
`n - 1` characters of the expansion and the terminator; when `n` is zero the
buffer is left as it was (`old`). -/
def snprintf (old : List Char) (n : Nat) (fmt : List Char) (args : List FmtArg) :
    List Char × Int :=
  let full := expandFormat fmt args
  (if n = 0 then old else full.take (n - 1), (full.length : Int))

/-- The format string of `error::error`. -/
def error_fmt : List Char :=
  ['E', 'r', 'r', 'o', 'r', ':', ' ', '%', 's', '\n',
   'E', 'r', 'r', 'o', 'r', 'C', 'o', 'd', 'e', ':', ' ', '%', 'd', ' ', '-', ' ', '%', 's', '\n']

/-- The class `error`: its only member is the formatted buffer `buf_`, held
here as the C string it contains. -/
structure error where
  buf_ : List Char
  deriving DecidableEq, Repr

/-- The constructor `error::error(sqlite3* db)`, run when the history is `l`. -/
def error.construct (nat : Native) (l : List Call) (db : Ptr) : error :=
  let code := nat.sqlite3_errcode l db
  let msg := nat.sqlite3_errmsg l db
  let str := nat.sqlite3_errstr code
  let args := [FmtArg.s msg, FmtArg.d code, FmtArg.s str]
  -- find appropriate size for buffer
  let size := (snprintf [] 0 error_fmt args).2
  -- allocate buffer: `new char[size+1]`, contents not yet written
  let buf : List Char := []
  -- generate formatted error message
  ⟨(snprintf buf size.toNat error_fmt args).1⟩

/-- The member `error::what`. -/
def error.what (e : error) : List Char := e.buf_

/-- The text the format of `error::error` stands for, written out. -/
def fullMessage (m : List Char) (c : Int) (s : List Char) : List Char :=
  "Error: ".toList ++ m ++ "\nErrorCode: ".toList ++ decimal c ++ " - ".toList ++ s ++ "\n".toList

/-! ## Outcomes of member functions -/

/-- What a member function leaves behind: the history of native calls after
it, the object it was called on (`self`, as the call left it, also when it
threw) and either its return value or the `error` it threw. -/
structure Outcome (σ α : Type) where
  log : List Call
  self : σ
  out : Except error α

/-- Whether the call threw. -/
def Outcome.raised {σ α : Type} (r : Outcome σ α) : Bool :=
  match r.out with
  | .error _ => true
  | .ok _ => false

/-! ## class database -/

/-- The class `database`: the native handle `handle_`. -/
structure database where
  handle_ : Ptr
  deriving DecidableEq, Repr

/-- The class `statement`: the compiled statement `stmt_`. -/
structure statement where
  stmt_ : Ptr
  deriving DecidableEq, Repr

/-- The class `iterator`: the borrowed statement `stmt_`. -/
structure iterator where
  stmt_ : Ptr
  deriving DecidableEq, Repr

/-- The member `database::close`. -/
def database.close (_nat : Native) (db : database) (l : List Call) : Outcome database Unit :=
  ⟨l ++ [Call.sqlite3_close db.handle_], ⟨nullptr⟩, .ok ()⟩

/-- The member `database::open(const char* path)`. -/
def database.open (nat : Native) (path : String) (db : database) (l : List Call) :
    Outcome database Unit :=
  let r : Outcome database Unit :=
    if db.handle_ ≠ nullptr then database.close nat db l else ⟨l, db, .ok ()⟩
  -- sqlite3_open(path, &handle_)
  let ans := nat.sqlite3_open r.log path
  let l1 := r.log ++ [Call.sqlite3_open path]
  let db1 : database := ⟨ans.2⟩
  if ans.1 ≠ SQLITE_OK then
    ⟨l1, db1, .error (error.construct nat l1 db1.handle_)⟩
  else
    ⟨l1, db1, .ok ()⟩

/-- The constructor `database::database(const char* path)`.  When it throws,
`self` is the object under construction, whose destructor does not run. -/
def database.construct (nat : Native) (path : String) (l : List Call) : Outcome database Unit :=
  database.open nat path ⟨nullptr⟩ l

/-- The destructor `database::~database`. -/
def database.destroy (nat : Native) (db : database) (l : List Call) : Outcome Unit Unit :=
  let r := database.close nat db l
  ⟨r.log, (), r.out⟩

/-- The member `database::prepare(const char* stmt_str)`.  The returned object
is built in place (`return statement(stmt)`). -/
def database.prepare (nat : Native) (stmt_str : String) (db : database) (l : List Call) :
    Outcome database statement :=
  let stmt := nat.sqlite3_prepare_v2 l db.handle_ stmt_str
  let l1 := l ++ [Call.sqlite3_prepare_v2 db.handle_ stmt_str]
  if stmt = nullptr then
    ⟨l1, db, .error (error.construct nat l1 db.handle_)⟩
  else
    ⟨l1, db, .ok ⟨stmt⟩⟩

/-- The member `int database::last_insert_rowid() const`: the native 64 bit
value converted to the return type `int`. -/
def database.last_insert_rowid (nat : Native) (db : database) (l : List Call) : Int :=
  toInt32 (nat.sqlite3_last_insert_rowid l db.handle_)

/-! ## class statement -/

/-- The defaulted move constructor `statement(statement&&) = default`: the new
object takes a copy of the pointer member, and `other` keeps its own.  The
result is the new object and `other` after the move. -/
def statement.move_construct (other : statement) : statement × statement :=
  (⟨other.stmt_⟩, other)

/-- The defaulted move assignment `operator = (statement&&) = default`: the
pointer member is assigned.  The result is the target and `other` after it. -/
def statement.move_assign (_self other : statement) : statement × statement :=
  (⟨other.stmt_⟩, other)

/-- The destructor `statement::~statement`. -/
def statement.destroy (_nat : Native) (s : statement) (l : List Call) : Outcome Unit Unit :=
  ⟨l ++ [Call.sqlite3_finalize s.stmt_], (), .ok ()⟩

/-- The member `statement::reset`. -/
def statement.reset (_nat : Native) (s : statement) (l : List Call) : Outcome statement Unit :=
  ⟨l ++ [Call.sqlite3_reset s.stmt_], s, .ok ()⟩

/-- The member `statement::exec`: the result code of the step is not read. -/
def statement.exec (nat : Native) (s : statement) (l : List Call) : Outcome statement Unit :=
  let _ret := nat.sqlite3_step l s.stmt_
  statement.reset nat s (l ++ [Call.sqlite3_step s.stmt_])

/-- The five overloads of `statement::bind(int pos, _)`: the result code of
the native bind is not read.  `SQLITE_STATIC` is the same in both text calls
and is left out. -/
def statement.bind (nat : Native) (pos : Int) (value : Value) (s : statement) (l : List Call) :
    Outcome statement Unit :=
  let _ret := nat.sqlite3_bind l s.stmt_ pos value
  match value with
  | .int v => ⟨l ++ [Call.sqlite3_bind_int s.stmt_ pos v], s, .ok ()⟩
  | .int64 v => ⟨l ++ [Call.sqlite3_bind_int64 s.stmt_ pos v], s, .ok ()⟩
  | .double b => ⟨l ++ [Call.sqlite3_bind_double s.stmt_ pos b], s, .ok ()⟩
  | .cstr v => ⟨l ++ [Call.sqlite3_bind_text s.stmt_ pos v (-1)], s, .ok ()⟩
  | .string v => ⟨l ++ [Call.sqlite3_bind_text s.stmt_ pos v v.length], s, .ok ()⟩

/-- The member templates `bind_all_impl_(int pos, T&& value, Args&&... values)`
and `bind_all_impl_(int)`; `pos+1` is computed in `int`. -/
def statement.bind_all_impl_ (nat : Native) :
    Int → List Value → statement → List Call → Outcome statement Unit
  | _, [], s, l => ⟨l, s, .ok ()⟩
  | pos, value :: values, s, l =>
    let r := statement.bind nat pos value s l
    match r.out with
    | .error e => ⟨r.log, r.self, .error e⟩
    | .ok _ => statement.bind_all_impl_ nat (toInt32 (pos + 1)) values r.self r.log

/-- The member template `statement::bind_all(Args&&... values)`. -/
def statement.bind_all (nat : Native) (values : List Value) (s : statement) (l : List Call) :
    Outcome statement Unit :=
  statement.bind_all_impl_ nat 1 values s l

/-! ## class iterator -/

/-- The member `iterator::step`. -/
def iterator.step (nat : Native) (it : iterator) (l : List Call) : Outcome iterator Unit :=
  let ret := nat.sqlite3_step l it.stmt_
  let l1 := l ++ [Call.sqlite3_step it.stmt_]
  if ret = SQLITE_ROW then
    ⟨l1, it, .ok ()⟩
  else if ret = SQLITE_DONE then
    ⟨l1, ⟨nullptr⟩, .ok ()⟩
  else
    ⟨l1, it, .error (error.construct nat l1 (nat.sqlite3_db_handle it.stmt_))⟩

/-- The default constructor `iterator::iterator()`. -/
def iterator.default : iterator := ⟨nullptr⟩

/-- The constructor `iterator::iterator(sqlite3_stmt* stmt)`. -/
def iterator.construct (nat : Native) (stmt : Ptr) (l : List Call) : Outcome iterator Unit :=
  let it : iterator := ⟨stmt⟩
  if it.stmt_ ≠ nullptr then iterator.step nat it l else ⟨l, it, .ok ()⟩

/-- The member `iterator::operator ++`. -/
def iterator.increment (nat : Native) (it : iterator) (l : List Call) : Outcome iterator Unit :=
  iterator.step nat it l

/-- The member `iterator::operator !=`. -/
def iterator.ne (it other : iterator) : Bool :=
  it.stmt_ != other.stmt_

/-- The member `iterator::operator []`. -/
def iterator.index (nat : Native) (it : iterator) (l : List Call) (column : Int) : List Char :=
  nat.sqlite3_column_text l it.stmt_ column

/-- The member `statement::begin`. -/
def statement.begin (nat : Native) (s : statement) (l : List Call) : Outcome statement iterator :=
  let r := statement.reset nat s l
  let c := iterator.construct nat r.self.stmt_ r.log
  match c.out with
  | .error e => ⟨c.log, r.self, .error e⟩
  | .ok _ => ⟨c.log, r.self, .ok c.self⟩

/-- The member `statement::end`. -/
def statement.end_ (_s : statement) : iterator := iterator.default

/-- A row as the loop body sees it: the column reader of the cursor. -/
abbrev Row := Int → List Char

/-- The loop `for(; it != end; ++it) visit(*it)`, the visit recording the row
under the cursor.  It stops at the first error.  `fuel` bounds the number of
evaluations of the loop condition; the result is `none` when it runs out. -/
def forLoop (nat : Native) (end_it : iterator) :
    Nat → iterator → List Call → List Row → Option (Outcome iterator (List Row))
  | 0, _, _, _ => none
  | fuel + 1, it, l, visited =>
    if iterator.ne it end_it then
      let visited1 := visited ++ [iterator.index nat it l]
      let r := iterator.increment nat it l
      match r.out with
      | .error e => some ⟨r.log, r.self, .error e⟩
      | .ok _ => forLoop nat end_it fuel r.self r.log visited1
    else
      some ⟨l, it, .ok visited⟩

/-- The range-based loop `for(auto row : s) visit(row)` of the example
program: `s.begin()`, `s.end()`, then the loop. -/
def rangeFor (nat : Native) (fuel : Nat) (s : statement) (l : List Call) :
    Option (Outcome iterator (List Row)) :=
  let b := statement.begin nat s l
  match b.out with
  | .error e => some ⟨b.log, iterator.default, .error e⟩
  | .ok it => forLoop nat (statement.end_ b.self) fuel it b.log []

/-! ## class transaction -/

/-- The class `transaction`: the members initialised by its constructor.
`db_` is a reference to the connection; no member of the scope changes the
connection, so the scope carries the connection it refers to. -/
structure transaction where
  db_ : database
  rollback_ : Bool
  deriving DecidableEq, Repr

/-- The constructor `transaction::transaction(database& db)`. -/
def transaction.construct (db : database) : transaction := ⟨db, true⟩

/-- The full expression `db_.prepare(sql).exec();`: the temporary statement
is destroyed when the expression ends. -/
def prepare_exec (nat : Native) (sql : String) (db : database) (l : List Call) :
    Outcome database Unit :=
  let p := database.prepare nat sql db l
  match p.out with
  | .error e => ⟨p.log, p.self, .error e⟩
  | .ok s =>
    let x := statement.exec nat s p.log
    let d := statement.destroy nat x.self x.log
    ⟨d.log, p.self, x.out⟩

/-- The member `transaction::commit`. -/
def transaction.commit (nat : Native) (t : transaction) (l : List Call) :
    Outcome transaction Unit :=
  let r := prepare_exec nat "COMMIT" t.db_ l
  match r.out with
  | .error e => ⟨r.log, t, .error e⟩
  | .ok _ => ⟨r.log, ⟨t.db_, false⟩, .ok ()⟩

/-- The member `transaction::rollback`. -/
def transaction.rollback (nat : Native) (t : transaction) (l : List Call) :
    Outcome transaction Unit :=
  let r := prepare_exec nat "ROLLBACK" t.db_ l
  ⟨r.log, t, r.out⟩

/-- The destructor `transaction::~transaction`. -/
def transaction.destroy (nat : Native) (t : transaction) (l : List Call) : Outcome Unit Unit :=
  if t.rollback_ then
    let r := transaction.rollback nat t l
    ⟨r.log, (), r.out⟩
  else
    ⟨l, (), .ok ()⟩

/-! ## Scenarios and reference definitions -/

/-- The native bind call that `statement::bind(pos, value)` forwards to. -/
def bindCall (stmt : Ptr) (pos : Int) : Value → Call
  | .int v => Call.sqlite3_bind_int stmt pos v
  | .int64 v => Call.sqlite3_bind_int64 stmt pos v
  | .double b => Call.sqlite3_bind_double stmt pos b
  | .cstr v => Call.sqlite3_bind_text stmt pos v (-1)
  | .string v => Call.sqlite3_bind_text stmt pos v v.length

/-- The statements `bind(i, v);` for each listed pair, in order. -/
def bindEach (nat : Native) :
    List (Nat × Value) → statement → List Call → Outcome statement Unit
  | [], s, l => ⟨l, s, .ok ()⟩
  | (i, v) :: rest, s, l =>
    let r := statement.bind nat i v s l
    match r.out with
    | .error e => ⟨r.log, r.self, .error e⟩
    | .ok _ => bindEach nat rest r.self r.log

/-- The reference for `bind_all`, in the words of the specification: the
positional binds `bind(1, v1)`, `bind(2, v2)`, ..., `bind(n, vn)` in that order. -/
def positionalBinds (nat : Native) (values : List Value) (s : statement) (l : List Call) :
    Outcome statement Unit :=
  bindEach nat (List.enumFrom 1 values) s l

/-- A transfer between statement objects, which are numbered in the order
they come to exist. -/
inductive Transfer where
  | default_construct
  | move_construct (src : Nat)
  | move_assign (dst src : Nat)
  deriving DecidableEq, Repr

/-- One transfer applied to the live statement objects.  A transfer that
names an object that does not exist is skipped. -/
def applyTransfer (objs : List statement) : Transfer → List statement
  | .default_construct => objs ++ [⟨nullptr⟩]
  | .move_construct src =>
    match objs[src]? with
    | none => objs
    | some o =>
      let m := statement.move_construct o
      (objs.set src m.2) ++ [m.1]
  | .move_assign dst src =>
    match objs[dst]?, objs[src]? with
    | some d, some o =>
      let m := statement.move_assign d o
      (objs.set src m.2).set dst m.1
    | _, _ => objs

/-- Destruction of the listed statement objects, the first one first. -/
def destroyAll (nat : Native) : List statement → List Call → List Call
  | [], l => l
  | s :: rest, l => destroyAll nat rest (statement.destroy nat s l).log

/-- A statement is prepared, transferred as listed, and then every statement
object is destroyed, in reverse order of construction. -/
def prepareTransferDestroy (nat : Native) (db : database) (sql : String) (ts : List Transfer)
    (l : List Call) : List Call :=
  let p := database.prepare nat sql db l
  match p.out with
  | .error _ => p.log
  | .ok s => destroyAll nat (ts.foldl applyTransfer [s]).reverse p.log

/-- How often the statement `stmt` was passed to `sqlite3_finalize`. -/
def finalizeCount (stmt : Ptr) (l : List Call) : Nat :=
  l.count (Call.sqlite3_finalize stmt)

/-- A call made on a transaction scope. -/
inductive ScopeCall where
  | commit
  | rollback
  deriving DecidableEq, Repr

/-- The state of a scope after the calls made on it. -/
structure ScopeRun where
  log : List Call
  scope : transaction
  /-- Whether a `commit()` call has returned. -/
  committed : Bool
  /-- The error that ended the calls, if one was thrown. -/
  thrown : Option error

/-- The calls made on a scope, in order; a call that throws ends them (the
error leaves the block and the remaining calls are not made). -/
def runScopeCalls (nat : Native) :
    List ScopeCall → transaction → List Call → Bool → ScopeRun
  | [], t, l, c => ⟨l, t, c, none⟩
  | .commit :: rest, t, l, c =>
    let r := transaction.commit nat t l
    match r.out with
    | .error e => ⟨r.log, r.self, c, some e⟩
    | .ok _ => runScopeCalls nat rest r.self r.log true
  | .rollback :: rest, t, l, c =>
    let r := transaction.rollback nat t l
    match r.out with
    | .error e => ⟨r.log, r.self, c, some e⟩
    | .ok _ => runScopeCalls nat rest r.self r.log c

/-- The native calls issued by the destructor of the scope after the calls
`calls` were made on a scope opened on `db`. -/
def scopeExitCalls (nat : Native) (db : database) (calls : List ScopeCall) (l : List Call) :
    List Call :=
  let run := runScopeCalls nat calls (transaction.construct db) l false
  (transaction.destroy nat run.scope run.log).log.drop run.log.length

/-- The statement `stmt` of the engine `nat` holds the rows `rows`: after each
reset, whatever came before, the steps answer `SQLITE_ROW` once per row, each
making that row the current one, and then `SQLITE_DONE`. -/
def YieldsRows (nat : Native) (stmt : Ptr) (rows : List Row) : Prop :=
  ∀ (h : List Call) (k : Nat),
    (∀ r : Row, rows[k]? = some r →
      nat.sqlite3_step (h ++ Call.sqlite3_reset stmt :: List.replicate k (Call.sqlite3_step stmt))
          stmt = SQLITE_ROW ∧
        nat.sqlite3_column_text
          (h ++ Call.sqlite3_reset stmt :: List.replicate (k + 1) (Call.sqlite3_step stmt)) stmt = r) ∧
    (k = rows.length →
      nat.sqlite3_step (h ++ Call.sqlite3_reset stmt :: List.replicate k (Call.sqlite3_step stmt))
          stmt = SQLITE_DONE)

/-- Steps taken on `stmt` since its last reset, read off a history given
newest call first. -/
def stepsSinceReset (stmt : Ptr) : List Call → Nat
  | [] => 0
  | Call.sqlite3_step q :: rest =>
    if q = stmt then stepsSinceReset stmt rest + 1 else stepsSinceReset stmt rest
  | Call.sqlite3_reset q :: rest =>
    if q = stmt then 0 else stepsSinceReset stmt rest
  | _ :: rest => stepsSinceReset stmt rest

/-- A sample engine: every statement reads the table `rows`, and the other
native functions give the fixed answers listed. -/
def tableNative (openAnswer : Int × Ptr) (stmt : Ptr) (bindCode : Int) (rowid : Int)
    (rows : List Row) : Native where
  sqlite3_open := fun _ _ => openAnswer
  sqlite3_prepare_v2 := fun _ _ _ => stmt
  sqlite3_step := fun h p =>
    if stepsSinceReset p h.reverse < rows.length then SQLITE_ROW else SQLITE_DONE
  sqlite3_bind := fun _ _ _ _ => bindCode
  sqlite3_db_handle := fun _ => openAnswer.2
  sqlite3_errcode := fun _ _ => openAnswer.1
  sqlite3_errmsg := fun _ _ => "unable to open database file".toList
  sqlite3_errstr := fun _ => "unable to open database file".toList
  sqlite3_last_insert_rowid := fun _ _ => rowid
  sqlite3_column_text := fun h p =>
    match rows[stepsSinceReset p h.reverse - 1]? with
    | some r => r
    | none => fun _ => []

/-- A sample engine whose steps all answer `stepCode`. -/
def fixedNative (stmt : Ptr) (stepCode : Int) : Native where
  sqlite3_open := fun _ _ => (SQLITE_OK, 1)
  sqlite3_prepare_v2 := fun _ _ _ => stmt
  sqlite3_step := fun _ _ => stepCode
  sqlite3_bind := fun _ _ _ _ => stepCode
  sqlite3_db_handle := fun _ => 1
  sqlite3_errcode := fun _ _ => stepCode
  sqlite3_errmsg := fun _ _ => "constraint failed".toList
  sqlite3_errstr := fun _ => "constraint failed".toList
  sqlite3_last_insert_rowid := fun _ _ => 0
  sqlite3_column_text := fun _ _ _ => []

/-- The two rows of the example program. -/
def exampleRows : List Row :=
  [fun c => if c = 0 then "apple".toList else "125".toList,
   fun c => if c = 0 then "banana".toList else "70".toList]

/-! ## Theorems -/

/-- The format of `error::error` expands to the written-out text. -/
theorem expandFormat_error_fmt (m : List Char) (c : Int) (s : List Char) :
    expandFormat error_fmt [FmtArg.s m, FmtArg.d c, FmtArg.s s] = fullMessage m c s := by
  simp [expandFormat, error_fmt, fullMessage]

/-- C10 (evaluation of the code): `error::what` returns the expansion without its last character. -/
theorem error_what_drops_last_char (nat : Native) (l : List Call) (db : Ptr) :
    (error.construct nat l db).what
        = (fullMessage (nat.sqlite3_errmsg l db) (nat.sqlite3_errcode l db)
            (nat.sqlite3_errstr (nat.sqlite3_errcode l db))).dropLast
      ∧ (error.construct nat l db).what
        ≠ fullMessage (nat.sqlite3_errmsg l db) (nat.sqlite3_errcode l db)
            (nat.sqlite3_errstr (nat.sqlite3_errcode l db)) := by
  have hw : ∀ (m : List Char) (c : Int) (s : List Char),
      (snprintf [] ((snprintf [] 0 error_fmt [FmtArg.s m, FmtArg.d c, FmtArg.s s]).2).toNat
        error_fmt [FmtArg.s m, FmtArg.d c, FmtArg.s s]).1 = (fullMessage m c s).dropLast := by
    intro m c s
    simp only [snprintf, expandFormat_error_fmt, Int.toNat_ofNat]
    have hlen : (fullMessage m c s).length ≠ 0 := by simp [fullMessage]
    rw [if_neg hlen, List.dropLast_eq_take]
  have hne : ∀ (m : List Char) (c : Int) (s : List Char),
      (fullMessage m c s).dropLast ≠ fullMessage m c s := by
    intro m c s h
    have := congrArg List.length h
    simp [fullMessage] at this
  have hwhat : (error.construct nat l db).what
      = (fullMessage (nat.sqlite3_errmsg l db) (nat.sqlite3_errcode l db)
          (nat.sqlite3_errstr (nat.sqlite3_errcode l db))).dropLast := hw _ _ _
  refine ⟨hwhat, ?_⟩
  rw [hwhat]
  exact hne _ _ _

/-- C3: advancing an Active cursor performs exactly one native step; on
`SQLITE_ROW` the cursor stays Active on the same statement, on `SQLITE_DONE`
it becomes Exhausted (null statement), and it throws exactly for the other codes. -/
theorem iterator_increment_by_code (nat : Native) (it : iterator) (l : List Call)
    (hactive : it.stmt_ ≠ nullptr) :
    (iterator.increment nat it l).log = l ++ [Call.sqlite3_step it.stmt_] ∧
    (nat.sqlite3_step l it.stmt_ = SQLITE_ROW →
      (iterator.increment nat it l).out = .ok () ∧
      (iterator.increment nat it l).self = it ∧
      (iterator.increment nat it l).self.stmt_ ≠ nullptr) ∧
    (nat.sqlite3_step l it.stmt_ = SQLITE_DONE →
      (iterator.increment nat it l).out = .ok () ∧
      (iterator.increment nat it l).self.stmt_ = nullptr) ∧
    (nat.sqlite3_step l it.stmt_ ≠ SQLITE_ROW → nat.sqlite3_step l it.stmt_ ≠ SQLITE_DONE →
      (iterator.increment nat it l).out
        = .error (error.construct nat (l ++ [Call.sqlite3_step it.stmt_])
            (nat.sqlite3_db_handle it.stmt_))) ∧
    ((iterator.increment nat it l).raised = true ↔
      (nat.sqlite3_step l it.stmt_ ≠ SQLITE_ROW ∧ nat.sqlite3_step l it.stmt_ ≠ SQLITE_DONE)) := by
  have hne : SQLITE_ROW ≠ SQLITE_DONE := by decide
  unfold iterator.increment iterator.step
  by_cases hrow : nat.sqlite3_step l it.stmt_ = SQLITE_ROW
  · have hdone : nat.sqlite3_step l it.stmt_ ≠ SQLITE_DONE := by rw [hrow]; exact hne
    simp [hrow, hne, hactive, Outcome.raised]
  · by_cases hdone : nat.sqlite3_step l it.stmt_ = SQLITE_DONE
    · simp [hdone, hne.symm, Outcome.raised]
    · simp [hrow, hdone, Outcome.raised]

/-- Witness of C3: a cursor on statement 5 whose step answers `SQLITE_DONE`. -/
theorem iterator_increment_by_code_witness :
    (iterator.increment (fixedNative 5 SQLITE_DONE) ⟨5⟩ []).log = [] ++ [Call.sqlite3_step 5] ∧
    (iterator.increment (fixedNative 5 SQLITE_DONE) ⟨5⟩ []).self.stmt_ = nullptr :=
  ⟨(iterator_increment_by_code (fixedNative 5 SQLITE_DONE) ⟨5⟩ [] (by decide)).1,
   ((iterator_increment_by_code (fixedNative 5 SQLITE_DONE) ⟨5⟩ [] (by decide)).2.2.1 rfl).2⟩

/-- C7 (counterexample): a step that answers 19 (`SQLITE_CONSTRAINT`), which is
neither `SQLITE_ROW` nor `SQLITE_DONE`, and `exec()` throws nothing; a bind that
answers 19, which is not `SQLITE_OK`, and `bind` throws nothing. -/
theorem exec_bind_swallow_error_codes :
    ¬ ((statement.exec (fixedNative 5 19) ⟨5⟩ []).raised = true ↔
        ((fixedNative 5 19).sqlite3_step [] 5 ≠ SQLITE_ROW ∧
         (fixedNative 5 19).sqlite3_step [] 5 ≠ SQLITE_DONE)) ∧
    ¬ ((statement.bind (fixedNative 5 19) 1 (Value.int 125) ⟨5⟩ []).raised = true ↔
        (fixedNative 5 19).sqlite3_bind [] 5 1 (Value.int 125) ≠ SQLITE_OK) := by
  simp [statement.exec, statement.reset, statement.bind, Outcome.raised, fixedNative,
    SQLITE_ROW, SQLITE_DONE, SQLITE_OK]

/-- C7 (amended): `exec()` throws nothing when its step answers a benign code,
and `bind(pos, value)` issues its native bind call and throws nothing whatever
the engine answers. -/
theorem exec_bind_throw_nothing (nat : Native) (s : statement) (l : List Call) (pos : Int)
    (value : Value)
    (_hbenign : nat.sqlite3_step l s.stmt_ = SQLITE_ROW ∨ nat.sqlite3_step l s.stmt_ = SQLITE_DONE) :
    (statement.exec nat s l).raised = false ∧
    (statement.bind nat pos value s l).raised = false ∧
    (statement.bind nat pos value s l).log = l ++ [bindCall s.stmt_ pos value] := by
  refine ⟨rfl, ?_, ?_⟩ <;> cases value <;> rfl

/-- Witness of C7 (amended): a step that answers `SQLITE_DONE`. -/
theorem exec_bind_throw_nothing_witness :
    (statement.exec (fixedNative 5 SQLITE_DONE) ⟨5⟩ []).raised = false ∧
    (statement.bind (fixedNative 5 SQLITE_DONE) 1 (Value.int 125) ⟨5⟩ []).raised = false ∧
    (statement.bind (fixedNative 5 SQLITE_DONE) 1 (Value.int 125) ⟨5⟩ []).log
      = [] ++ [bindCall 5 1 (Value.int 125)] :=
  exec_bind_throw_nothing (fixedNative 5 SQLITE_DONE) ⟨5⟩ [] 1 (Value.int 125) (Or.inr rfl)

/-- C9 (evaluation of the code): the engine reports row id 2^31 and
`last_insert_rowid()` returns -2^31. -/
theorem last_insert_rowid_wraps :
    (tableNative (SQLITE_OK, 1) 5 0 2147483648 []).sqlite3_last_insert_rowid [] 1 = 2147483648 ∧
    database.last_insert_rowid (tableNative (SQLITE_OK, 1) 5 0 2147483648 []) ⟨1⟩ []
      = -2147483648 := by
  constructor
  · rfl
  · decide

/-- A positional bind issues its one native call, leaves the statement as it
was and throws nothing. -/
theorem statement_bind_eq (nat : Native) (pos : Int) (value : Value) (s : statement)
    (l : List Call) :
    statement.bind nat pos value s l = ⟨l ++ [bindCall s.stmt_ pos value], s, .ok ()⟩ := by
  cases value <;> rfl

/-- Positions below 2^31 are unchanged by the conversion to `int`. -/
theorem toInt32_of_lt (n : Nat) (h : n < 2 ^ 31) : toInt32 (n : Int) = (n : Int) := by
  unfold toInt32
  have h1 : (0 : Int) ≤ (n : Int) + 2 ^ 31 := by positivity
  have h2 : (n : Int) + 2 ^ 31 < 2 ^ 32 := by
    have : (n : Int) < 2 ^ 31 := by exact_mod_cast h
    linarith
  rw [Int.emod_eq_of_lt h1 h2]
  ring

/-- The recursion of `bind_all_impl_` from position `n` is the sequence of
positional binds at `n`, `n + 1`, ... -/
theorem bind_all_impl_eq_bindEach (nat : Native) (values : List Value) :
    ∀ (n : Nat) (s : statement) (l : List Call), n + values.length < 2 ^ 31 →
      statement.bind_all_impl_ nat (n : Int) values s l
        = bindEach nat (List.enumFrom n values) s l := by
  induction values with
  | nil => intro n s l _; rfl
  | cons v vs ih =>
    intro n s l h
    have hlen : n + 1 + vs.length < 2 ^ 31 := by
      simp only [List.length_cons] at h
      omega
    have hn : toInt32 ((n : Int) + 1) = ((n + 1 : Nat) : Int) := by
      have := toInt32_of_lt (n + 1) (by omega)
      simpa using this
    simp only [statement.bind_all_impl_, List.enumFrom_cons, bindEach, statement_bind_eq]
    rw [hn]
    exact ih (n + 1) s _ hlen

/-- The positional binds of the listed pairs issue one native bind per pair. -/
theorem bindEach_log (nat : Native) (pairs : List (Nat × Value)) :
    ∀ (s : statement) (l : List Call),
      bindEach nat pairs s l
        = ⟨l ++ pairs.map (fun iv => bindCall s.stmt_ (iv.1 : Int) iv.2), s, .ok ()⟩ := by
  induction pairs with
  | nil => intro s l; simp [bindEach]
  | cons iv rest ih =>
    intro s l
    obtain ⟨i, v⟩ := iv
    simp only [bindEach, statement_bind_eq, ih, List.map_cons, List.append_assoc,
      List.singleton_append]

/-- C8: `bind_all(v1, ..., vn)` is the positional binds `bind(1, v1)`, ...,
`bind(n, vn)` in that order, and the native calls it issues are exactly one
bind per value, value `i` at position `i`, counted from 1. -/
theorem bind_all_eq_positionalBinds (nat : Native) (values : List Value) (s : statement)
    (l : List Call) (hlen : values.length < 2 ^ 31 - 1) :
    statement.bind_all nat values s l = positionalBinds nat values s l ∧
    (statement.bind_all nat values s l).log
      = l ++ (List.enumFrom 1 values).map (fun iv => bindCall s.stmt_ (iv.1 : Int) iv.2) ∧
    (statement.bind_all nat values s l).raised = false := by
  have h := bind_all_impl_eq_bindEach nat values 1 s l (by omega)
  have h1 : statement.bind_all nat values s l = positionalBinds nat values s l := by
    unfold statement.bind_all positionalBinds
    simpa using h
  refine ⟨h1, ?_, ?_⟩
  · rw [h1, positionalBinds, bindEach_log]
  · rw [h1, positionalBinds, bindEach_log]; rfl

/-- Witness of C8: the call `bind_all("banana", "fruit", 70)` of the example program. -/
theorem bind_all_eq_positionalBinds_witness :
    (statement.bind_all (fixedNative 5 SQLITE_DONE)
        [Value.cstr "banana".toList, Value.cstr "fruit".toList, Value.int 70] ⟨5⟩ []).log
      = [Call.sqlite3_bind_text 5 1 "banana".toList (-1),
         Call.sqlite3_bind_text 5 2 "fruit".toList (-1),
         Call.sqlite3_bind_int 5 3 70] :=
  (bind_all_eq_positionalBinds (fixedNative 5 SQLITE_DONE)
    [Value.cstr "banana".toList, Value.cstr "fruit".toList, Value.int 70] ⟨5⟩ []
    (by norm_num)).2.1

/-- C5 (evaluation of the code): on an engine whose `sqlite3_prepare_v2` yields
no statement (a closed connection, or a ROLLBACK that does not compile), the
destructor of a Pending transaction scope throws, from `database::prepare`,
after its one native call; `close()` and the statement destructor throw nothing there. -/
theorem transaction_destroy_throws_when_prepare_fails :
    (tableNative (SQLITE_OK, 1) nullptr 0 0 []).sqlite3_prepare_v2 [] nullptr "ROLLBACK" = nullptr ∧
    (transaction.destroy (tableNative (SQLITE_OK, 1) nullptr 0 0 [])
        (transaction.construct ⟨nullptr⟩) []).raised = true ∧
    (transaction.destroy (tableNative (SQLITE_OK, 1) nullptr 0 0 [])
        (transaction.construct ⟨nullptr⟩) []).log
      = [Call.sqlite3_prepare_v2 nullptr "ROLLBACK"] ∧
    (database.close (tableNative (SQLITE_OK, 1) nullptr 0 0 []) ⟨nullptr⟩ []).raised = false ∧
    (statement.destroy (tableNative (SQLITE_OK, 1) nullptr 0 0 []) ⟨5⟩ []).raised = false := by
  refine ⟨rfl, ?_, ?_, rfl, rfl⟩
  · simp [transaction.destroy, transaction.construct, transaction.rollback, prepare_exec,
      database.prepare, tableNative, Outcome.raised]
  · simp [transaction.destroy, transaction.construct, transaction.rollback, prepare_exec,
      database.prepare, tableNative, nullptr]

/-- C6 (counterexample): the native open fails with 14 (`SQLITE_CANTOPEN`) and
stores the handle 7; `open` throws, but no `sqlite3_close` was issued for the
handle and the connection still holds it. -/
theorem open_failure_keeps_handle :
    ((tableNative (14, 7) 5 0 0 []).sqlite3_open [] "/nonexistent/store.db").1 ≠ SQLITE_OK ∧
    (database.open (tableNative (14, 7) 5 0 0 []) "/nonexistent/store.db" ⟨nullptr⟩ []).raised
      = true ∧
    ¬ (Call.sqlite3_close 7 ∈
        (database.open (tableNative (14, 7) 5 0 0 []) "/nonexistent/store.db" ⟨nullptr⟩ []).log ∧
       (database.open (tableNative (14, 7) 5 0 0 []) "/nonexistent/store.db"
          ⟨nullptr⟩ []).self.handle_ = nullptr) ∧
    (database.open (tableNative (14, 7) 5 0 0 []) "/nonexistent/store.db" ⟨nullptr⟩ []).log
      = [Call.sqlite3_open "/nonexistent/store.db"] ∧
    (database.open (tableNative (14, 7) 5 0 0 []) "/nonexistent/store.db"
      ⟨nullptr⟩ []).self.handle_ = 7 := by
  simp [database.open, tableNative, Outcome.raised, SQLITE_OK, nullptr]

/-- C6 (amended): when the native open reports failure, `open` throws the
error translated from the handle the native call stored, having issued no
native call after the open; the handle stays in the connection, and the next
`close()` of the connection passes it to `sqlite3_close` and clears it. -/
theorem open_failure_throws_and_defers_close (nat : Native) (path : String) (db : database)
    (l : List Call)
    (hfail : (nat.sqlite3_open
        (if db.handle_ ≠ nullptr then l ++ [Call.sqlite3_close db.handle_] else l) path).1
          ≠ SQLITE_OK) :
    (database.open nat path db l).log
      = (if db.handle_ ≠ nullptr then l ++ [Call.sqlite3_close db.handle_] else l)
          ++ [Call.sqlite3_open path] ∧
    (database.open nat path db l).self.handle_
      = (nat.sqlite3_open
          (if db.handle_ ≠ nullptr then l ++ [Call.sqlite3_close db.handle_] else l) path).2 ∧
    (database.open nat path db l).out
      = .error (error.construct nat (database.open nat path db l).log
          (database.open nat path db l).self.handle_) ∧
    (database.close nat (database.open nat path db l).self (database.open nat path db l).log).log
      = (database.open nat path db l).log
          ++ [Call.sqlite3_close (database.open nat path db l).self.handle_] ∧
    (database.close nat (database.open nat path db l).self
      (database.open nat path db l).log).self.handle_ = nullptr ∧
    (database.close nat (database.open nat path db l).self
      (database.open nat path db l).log).raised = false := by
  by_cases hnull : db.handle_ = nullptr
  · simp only [hnull, ne_eq, not_true_eq_false, if_false] at hfail
    simp [database.open, database.close, hnull, hfail, Outcome.raised]
  · simp only [ne_eq, hnull, not_false_eq_true, if_true] at hfail
    simp [database.open, database.close, hnull, hfail, Outcome.raised]

/-- Witness of C6 (amended): the failing open of a fresh connection. -/
theorem open_failure_throws_and_defers_close_witness :
    (database.open (tableNative (14, 7) 5 0 0 []) "/nonexistent/store.db" ⟨nullptr⟩ []).log
      = [] ++ [Call.sqlite3_open "/nonexistent/store.db"] :=
  (open_failure_throws_and_defers_close (tableNative (14, 7) 5 0 0 []) "/nonexistent/store.db"
    ⟨nullptr⟩ [] (by decide)).1

/-- C1 (evaluation of the code): with no transfer the prepared statement 5 is
finalized once; after one move construction both objects hold it and it is
finalized twice; after a move assignment onto a default-constructed statement
it is finalized twice as well. -/
theorem moved_statement_finalized_twice :
    finalizeCount 5 (prepareTransferDestroy (fixedNative 5 SQLITE_DONE) ⟨1⟩ "SELECT 1" [] [])
      = 1 ∧
    finalizeCount 5 (prepareTransferDestroy (fixedNative 5 SQLITE_DONE) ⟨1⟩ "SELECT 1"
      [Transfer.move_construct 0] []) = 2 ∧
    finalizeCount 5 (prepareTransferDestroy (fixedNative 5 SQLITE_DONE) ⟨1⟩ "SELECT 1"
      [Transfer.default_construct, Transfer.move_assign 1 0] []) = 2 := by
  refine ⟨?_, ?_, ?_⟩ <;> decide

/-- The native calls of `db.prepare(sql).exec();`: the prepare, and when it
yields a statement, one step, one reset and the finalize of the temporary. -/
theorem prepare_exec_log (nat : Native) (sql : String) (db : database) (l : List Call) :
    (prepare_exec nat sql db l).log
      = l ++ Call.sqlite3_prepare_v2 db.handle_ sql ::
          (if nat.sqlite3_prepare_v2 l db.handle_ sql = nullptr then []
           else [Call.sqlite3_step (nat.sqlite3_prepare_v2 l db.handle_ sql),
                 Call.sqlite3_reset (nat.sqlite3_prepare_v2 l db.handle_ sql),
                 Call.sqlite3_finalize (nat.sqlite3_prepare_v2 l db.handle_ sql)]) := by
  by_cases h : nat.sqlite3_prepare_v2 l db.handle_ sql = nullptr
  · simp [prepare_exec, database.prepare, h]
  · simp [prepare_exec, database.prepare, h, statement.exec, statement.reset, statement.destroy]

/-- Throughout the calls made on a scope, the flag `rollback_` is set exactly
when no `commit()` has returned, and the scope stays on its connection. -/
theorem runScopeCalls_flag (nat : Native) (calls : List ScopeCall) :
    ∀ (t : transaction) (l : List Call) (c : Bool), t.rollback_ = !c →
      (runScopeCalls nat calls t l c).scope.rollback_ = !(runScopeCalls nat calls t l c).committed ∧
      (runScopeCalls nat calls t l c).scope.db_ = t.db_ := by
  induction calls with
  | nil => intro t l c h; exact ⟨h, rfl⟩
  | cons call rest ih =>
    intro t l c h
    cases call with
    | commit =>
      simp only [runScopeCalls]
      cases hout : (transaction.commit nat t l).out with
      | error e =>
        simp only [transaction.commit] at hout ⊢
        cases hp : (prepare_exec nat "COMMIT" t.db_ l).out with
        | error e1 => simp [hp, h]
        | ok u => simp [hp] at hout
      | ok u =>
        simp only [transaction.commit] at hout ⊢
        cases hp : (prepare_exec nat "COMMIT" t.db_ l).out with
        | error e1 => simp [hp] at hout
        | ok u1 =>
          simp only [hp]
          exact ih ⟨t.db_, false⟩ _ true rfl
    | rollback =>
      simp only [runScopeCalls]
      cases hout : (transaction.rollback nat t l).out with
      | error e => simp [transaction.rollback, h]
      | ok u =>
        simp only [transaction.rollback]
        exact ih t _ c h

/-- C4: after any calls of `commit()` and `rollback()` on a scope, its
destructor issues ROLLBACK against the connection exactly when no `commit()`
has returned: a Pending scope prepares, and if that yields a statement steps,
resets and finalizes, `ROLLBACK`; a Committed scope issues no native call. -/
theorem scope_exit_rollback_iff_pending (nat : Native) (db : database) (calls : List ScopeCall)
    (l : List Call) :
    ((runScopeCalls nat calls (transaction.construct db) l false).committed = false →
      scopeExitCalls nat db calls l
        = Call.sqlite3_prepare_v2 db.handle_ "ROLLBACK" ::
          (if nat.sqlite3_prepare_v2
                (runScopeCalls nat calls (transaction.construct db) l false).log
                db.handle_ "ROLLBACK" = nullptr then []
           else [Call.sqlite3_step (nat.sqlite3_prepare_v2
                    (runScopeCalls nat calls (transaction.construct db) l false).log
                    db.handle_ "ROLLBACK"),
                 Call.sqlite3_reset (nat.sqlite3_prepare_v2
                    (runScopeCalls nat calls (transaction.construct db) l false).log
                    db.handle_ "ROLLBACK"),
                 Call.sqlite3_finalize (nat.sqlite3_prepare_v2
                    (runScopeCalls nat calls (transaction.construct db) l false).log
                    db.handle_ "ROLLBACK")])) ∧
    ((runScopeCalls nat calls (transaction.construct db) l false).committed = true →
      scopeExitCalls nat db calls l = []) ∧
    (Call.sqlite3_prepare_v2 db.handle_ "ROLLBACK" ∈ scopeExitCalls nat db calls l ↔
      (runScopeCalls nat calls (transaction.construct db) l false).committed = false) := by
  obtain ⟨hflag, hdb⟩ := runScopeCalls_flag nat calls (transaction.construct db) l false rfl
  have hdb1 : (runScopeCalls nat calls (transaction.construct db) l false).scope.db_ = db := hdb
  have hpending : (runScopeCalls nat calls (transaction.construct db) l false).committed = false →
      scopeExitCalls nat db calls l
        = Call.sqlite3_prepare_v2 db.handle_ "ROLLBACK" ::
          (if nat.sqlite3_prepare_v2
                (runScopeCalls nat calls (transaction.construct db) l false).log
                db.handle_ "ROLLBACK" = nullptr then []
           else [Call.sqlite3_step (nat.sqlite3_prepare_v2
                    (runScopeCalls nat calls (transaction.construct db) l false).log
                    db.handle_ "ROLLBACK"),
                 Call.sqlite3_reset (nat.sqlite3_prepare_v2
                    (runScopeCalls nat calls (transaction.construct db) l false).log
                    db.handle_ "ROLLBACK"),
                 Call.sqlite3_finalize (nat.sqlite3_prepare_v2
                    (runScopeCalls nat calls (transaction.construct db) l false).log
                    db.handle_ "ROLLBACK")]) := by
    intro hc
    rw [hc] at hflag
    simp only [scopeExitCalls, transaction.destroy, hflag, Bool.not_false, if_true,
      transaction.rollback, prepare_exec_log, hdb1, List.drop_left]
  have hcommitted : (runScopeCalls nat calls (transaction.construct db) l false).committed = true →
      scopeExitCalls nat db calls l = [] := by
    intro hc
    rw [hc] at hflag
    simp [scopeExitCalls, transaction.destroy, hflag]
  refine ⟨hpending, hcommitted, ?_⟩
  constructor
  · intro hmem
    cases hc : (runScopeCalls nat calls (transaction.construct db) l false).committed with
    | false => rfl
    | true => rw [hcommitted hc] at hmem; simp at hmem
  · intro hc
    rw [hpending hc]
    exact List.mem_cons_self _ _

/-- The history after a reset of `stmt` and `j` steps, extended by one step. -/
theorem log_after_step (h : List Call) (stmt : Ptr) (j : Nat) :
    (h ++ Call.sqlite3_reset stmt :: List.replicate j (Call.sqlite3_step stmt))
        ++ [Call.sqlite3_step stmt]
      = h ++ Call.sqlite3_reset stmt :: List.replicate (j + 1) (Call.sqlite3_step stmt) := by
  rw [List.replicate_succ', List.append_assoc, List.cons_append]

/-- On a statement that holds `rows`, the step that follows a reset and `j`
steps leaves the cursor on the statement while a row is left and clears it
after the last row. -/
theorem iterator_step_after (nat : Native) (stmt : Ptr) (rows : List Row)
    (hrows : YieldsRows nat stmt rows) (h : List Call) (j : Nat) (hj : j ≤ rows.length) :
    iterator.step nat ⟨stmt⟩
        (h ++ Call.sqlite3_reset stmt :: List.replicate j (Call.sqlite3_step stmt))
      = ⟨h ++ Call.sqlite3_reset stmt :: List.replicate (j + 1) (Call.sqlite3_step stmt),
          if j < rows.length then ⟨stmt⟩ else ⟨nullptr⟩, .ok ()⟩ := by
  by_cases hlt : j < rows.length
  · have hrow := ((hrows h j).1 rows[j] (List.getElem?_eq_getElem hlt)).1
    simp only [iterator.step, hrow, if_true, log_after_step, hlt]
  · have hdone := (hrows h j).2 (by omega)
    have hne : SQLITE_DONE ≠ SQLITE_ROW := by decide
    simp only [iterator.step, hdone, hne, if_false, if_true, log_after_step, hlt]

/-- The loop, entered after a reset and `j + 1` steps with `m` rows left to
visit, visits those rows in order and ends with the Exhausted cursor. -/
theorem forLoop_visits_rest (nat : Native) (stmt : Ptr) (rows : List Row)
    (hstmt : stmt ≠ nullptr) (hrows : YieldsRows nat stmt rows) (h : List Call) :
    ∀ (m j fuel : Nat) (visited : List Row), j + m = rows.length → m < fuel →
      forLoop nat iterator.default fuel (if j < rows.length then ⟨stmt⟩ else ⟨nullptr⟩)
          (h ++ Call.sqlite3_reset stmt :: List.replicate (j + 1) (Call.sqlite3_step stmt)) visited
        = some ⟨h ++ Call.sqlite3_reset stmt ::
                  List.replicate (rows.length + 1) (Call.sqlite3_step stmt),
                ⟨nullptr⟩, .ok (visited ++ rows.drop j)⟩ := by
  intro m
  induction m with
  | zero =>
    intro j fuel visited hj hfuel
    obtain ⟨fuel1, rfl⟩ : ∃ f, fuel = f + 1 := ⟨fuel - 1, by omega⟩
    have hjN : j = rows.length := by omega
    subst hjN
    simp [forLoop, iterator.ne, iterator.default]
  | succ m ih =>
    intro j fuel visited hj hfuel
    obtain ⟨fuel1, rfl⟩ : ∃ f, fuel = f + 1 := ⟨fuel - 1, by omega⟩
    have hlt : j < rows.length := by omega
    have hcol : iterator.index nat ⟨stmt⟩
        (h ++ Call.sqlite3_reset stmt :: List.replicate (j + 1) (Call.sqlite3_step stmt))
          = rows[j] :=
      ((hrows h j).1 rows[j] (List.getElem?_eq_getElem hlt)).2
    have hstep := iterator_step_after nat stmt rows hrows h (j + 1) (by omega)
    have hne : iterator.ne ⟨stmt⟩ iterator.default = true := by
      simpa [iterator.ne, iterator.default] using hstmt
    rw [if_pos hlt]
    simp only [forLoop, hne, if_true, iterator.increment, hstep, hcol]
    rw [ih (j + 1) fuel1 (visited ++ [rows[j]]) (by omega) (by omega)]
    rw [List.drop_eq_getElem_cons hlt]
    simp

/-- On a statement that holds `rows`, the range-based loop started with any
history visits exactly `rows` and ends with the Exhausted cursor, after one
reset and one step more than there are rows. -/
theorem rangeFor_eq (nat : Native) (s : statement) (rows : List Row)
    (hstmt : s.stmt_ ≠ nullptr) (hrows : YieldsRows nat s.stmt_ rows) (fuel : Nat)
    (hfuel : rows.length < fuel) (l : List Call) :
    rangeFor nat fuel s l
      = some ⟨l ++ Call.sqlite3_reset s.stmt_ ::
                List.replicate (rows.length + 1) (Call.sqlite3_step s.stmt_),
              ⟨nullptr⟩, .ok rows⟩ := by
  have hstep := iterator_step_after nat s.stmt_ rows hrows l 0 (Nat.zero_le _)
  have hlog : l ++ [Call.sqlite3_reset s.stmt_]
      = l ++ Call.sqlite3_reset s.stmt_ :: List.replicate 0 (Call.sqlite3_step s.stmt_) := rfl
  have hloop := forLoop_visits_rest nat s.stmt_ rows hstmt hrows l rows.length 0 fuel []
    (by omega) hfuel
  simp only [rangeFor, statement.begin, statement.reset, iterator.construct, ne_eq, hstmt,
    not_false_eq_true, if_true, hlog, hstep, statement.end_]
  simpa using hloop

/-- C2: on a statement that holds N rows, the loop from `begin()` to `end()`
visits exactly those N rows, in order, and terminates with the Exhausted
cursor; a second loop over the same statement visits the same N rows again. -/
theorem rangeFor_visits_rows_and_restarts (nat : Native) (s : statement) (rows : List Row)
    (l : List Call) (fuel : Nat)
    (hstmt : s.stmt_ ≠ nullptr) (hrows : YieldsRows nat s.stmt_ rows)
    (hfuel : rows.length < fuel) :
    rangeFor nat fuel s l
      = some ⟨l ++ Call.sqlite3_reset s.stmt_ ::
                List.replicate (rows.length + 1) (Call.sqlite3_step s.stmt_),
              ⟨nullptr⟩, .ok rows⟩ ∧
    rangeFor nat fuel s
        (l ++ Call.sqlite3_reset s.stmt_ ::
          List.replicate (rows.length + 1) (Call.sqlite3_step s.stmt_))
      = some ⟨(l ++ Call.sqlite3_reset s.stmt_ ::
                  List.replicate (rows.length + 1) (Call.sqlite3_step s.stmt_))
                ++ Call.sqlite3_reset s.stmt_ ::
                  List.replicate (rows.length + 1) (Call.sqlite3_step s.stmt_),
              ⟨nullptr⟩, .ok rows⟩ :=
  ⟨rangeFor_eq nat s rows hstmt hrows fuel hfuel l,
   rangeFor_eq nat s rows hstmt hrows fuel hfuel _⟩

/-- Reading the steps since the last reset off a history that ends with a
reset of `stmt` and `k` steps on it. -/
theorem stepsSinceReset_after (stmt : Ptr) (h : List Call) (k : Nat) :
    stepsSinceReset stmt
        (h ++ Call.sqlite3_reset stmt :: List.replicate k (Call.sqlite3_step stmt)).reverse
      = k := by
  have haux : ∀ (n : Nat) (t : List Call),
      stepsSinceReset stmt
        (List.replicate n (Call.sqlite3_step stmt) ++ Call.sqlite3_reset stmt :: t) = n := by
    intro n t
    induction n with
    | zero => simp [stepsSinceReset]
    | succ n ih => simp [List.replicate_succ, stepsSinceReset, ih]
  rw [List.reverse_append, List.reverse_cons, List.reverse_replicate, List.append_assoc]
  exact haux k _

/-- Every statement of the sample engine holds its table. -/
theorem tableNative_yields (openAnswer : Int × Ptr) (stmt : Ptr) (bindCode rowid : Int)
    (rows : List Row) (p : Ptr) :
    YieldsRows (tableNative openAnswer stmt bindCode rowid rows) p rows := by
  intro h k
  constructor
  · intro r hr
    obtain ⟨hk, _⟩ := List.getElem?_eq_some.mp hr
    constructor
    · simp only [tableNative, stepsSinceReset_after, hk, if_true]
    · simp only [tableNative, stepsSinceReset_after, Nat.add_sub_cancel, hr]
  · intro hk
    simp only [tableNative, stepsSinceReset_after, hk, Nat.lt_irrefl, if_false]

/-- Witness of C2: the SELECT of the example program over its two rows. -/
theorem rangeFor_visits_rows_and_restarts_witness :
    rangeFor (tableNative (SQLITE_OK, 1) 5 0 0 exampleRows) 3 ⟨5⟩ []
      = some ⟨[Call.sqlite3_reset 5, Call.sqlite3_step 5, Call.sqlite3_step 5,
                Call.sqlite3_step 5],
              ⟨nullptr⟩, .ok exampleRows⟩ :=
  (rangeFor_visits_rows_and_restarts (tableNative (SQLITE_OK, 1) 5 0 0 exampleRows) ⟨5⟩
    exampleRows [] 3 (by decide) (tableNative_yields (SQLITE_OK, 1) 5 0 0 exampleRows 5)
    (by decide)).1

end sqlite3pp
